import Mathlib

set_option maxHeartbeats 1000000

namespace UpdateLogin

/-!
Shallow embedding of the `update-login` Appwrite cloud function.

The repository holds eight near-identical variants of one script:
four concatenated documents inside `src/index.js` (the exported
`userFunction`, a top-level `run`, an IIFE `main`, and a
`(request, response)` handler) and one script in each of
`src/unnamed/part_000` … `part_003`.  The embedding below follows the
first variant of `src/index.js` (`userFunction`, lines 124-227) for the
orchestrator and payload resolver, and embeds every variant's login
identifier builder separately.

Modelling conventions: optional JSON string fields are `Option String`
(JS `undefined`/`null` are `none`, and the empty string is falsy);
external builtins (`JSON.parse`, `decodeURIComponent`, `URLSearchParams`)
and the two remote Appwrite endpoints are oracles passed in as function
arguments; the outbound network calls are collected in a trace list.
-/

/-- JS truthiness of an optional string field: `undefined`, `null` and the
empty string are falsy, every other string is truthy. -/
def truthy : Option String → Bool
  | none => false
  | some s => !(s == "")

/-- List-level trim: drop leading and trailing whitespace characters. -/
def jsTrimList (l : List Char) : List Char :=
  ((l.dropWhile Char.isWhitespace).reverse.dropWhile Char.isWhitespace).reverse

/-- Model of `String.prototype.trim()`. -/
def jsTrim (s : String) : String :=
  String.mk (jsTrimList s.data)

/-- Model of the JS guard `x && String(x).trim()` used on the optional
payload fields: the field is present, non-empty, and non-blank. -/
def truthyTrim : Option String → Bool
  | none => false
  | some s => !(s == "") && !(jsTrim s == "")

/-- Model of `String(x).replace(/\D/g, "")`: keep only the decimal digits. -/
def stripNonDigits (s : String) : String :=
  String.mk (s.data.filter Char.isDigit)

/-- Whether a string contains at least one decimal digit. -/
def hasDigit (s : String) : Bool :=
  s.data.any Char.isDigit

/-- Login identifier builder of `src/index.js` lines 169-175 (the exported
`userFunction` variant): a non-blank `newPhone` wins, its digits becoming
`digits@phone.local` when any digit exists (and `null` when none exists,
without falling back to the email); otherwise a non-blank `newEmail`,
trimmed; otherwise `null`. -/
def buildIdentifier (newPhone newEmail : Option String) : Option String :=
  if truthyTrim newPhone then
    let digits := stripNonDigits (newPhone.getD "")
    if digits == "" then none else some (digits ++ "@phone.local")
  else if truthyTrim newEmail then
    some (jsTrim (newEmail.getD ""))
  else none

/-- Outcome of the identifier builder in the `run` variant of
`src/index.js` (lines 305-315), which rejects a non-blank digitless phone
with `failJson("newPhone invalid")` instead of leaving the identifier null. -/
inductive IdentOutcome
  | ok (ident : Option String)
  | invalid (msg : String)
deriving DecidableEq

/-- Login identifier builder of the `run` variant of `src/index.js`,
lines 305-315: same phone-first rule, but a non-blank phone with no digit
fails the whole request. -/
def buildIdentifierRunVariant (newPhone newEmail : Option String) : IdentOutcome :=
  if truthyTrim newPhone then
    let digits := stripNonDigits (newPhone.getD "")
    if digits == "" then IdentOutcome.invalid "newPhone invalid"
    else IdentOutcome.ok (some (digits ++ "@phone.local"))
  else if truthyTrim newEmail then IdentOutcome.ok (some (jsTrim (newEmail.getD "")))
  else IdentOutcome.ok none

/-- Login identifier builder of the IIFE `main` variant of `src/index.js`,
lines 479-485. -/
def buildIdentifierMainVariant (newPhone newEmail : Option String) : Option String :=
  if truthyTrim newPhone then
    let digits := stripNonDigits (newPhone.getD "")
    if digits == "" then none else some (digits ++ "@phone.local")
  else if truthyTrim newEmail then
    some (jsTrim (newEmail.getD ""))
  else none

/-- Login identifier builder of the `(request, response)` handler variant of
`src/index.js`, lines 643-649. -/
def buildIdentifierHttpVariant (newPhone newEmail : Option String) : Option String :=
  if truthyTrim newPhone then
    let digits := stripNonDigits (newPhone.getD "")
    if digits == "" then none else some (digits ++ "@phone.local")
  else if truthyTrim newEmail then
    some (jsTrim (newEmail.getD ""))
  else none

/-- Login identifier builder of `src/unnamed/part_000`, lines 49-55. -/
def buildIdentifierPart000 (newPhone newEmail : Option String) : Option String :=
  if truthyTrim newPhone then
    let digits := stripNonDigits (newPhone.getD "")
    if digits == "" then none else some (digits ++ "@phone.local")
  else if truthyTrim newEmail then
    some (jsTrim (newEmail.getD ""))
  else none

/-- Login identifier builder of `src/unnamed/part_001`, lines 143-149. -/
def buildIdentifierPart001 (newPhone newEmail : Option String) : Option String :=
  if truthyTrim newPhone then
    let digits := stripNonDigits (newPhone.getD "")
    if digits == "" then none else some (digits ++ "@phone.local")
  else if truthyTrim newEmail then
    some (jsTrim (newEmail.getD ""))
  else none

/-- Login identifier builder of `src/unnamed/part_002`, lines 99-105. -/
def buildIdentifierPart002 (newPhone newEmail : Option String) : Option String :=
  if truthyTrim newPhone then
    let digits := stripNonDigits (newPhone.getD "")
    if digits == "" then none else some (digits ++ "@phone.local")
  else if truthyTrim newEmail then
    some (jsTrim (newEmail.getD ""))
  else none

/-- Login identifier builder of `src/unnamed/part_003`, lines 88-94. -/
def buildIdentifierPart003 (newPhone newEmail : Option String) : Option String :=
  if truthyTrim newPhone then
    let digits := stripNonDigits (newPhone.getD "")
    if digits == "" then none else some (digits ++ "@phone.local")
  else if truthyTrim newEmail then
    some (jsTrim (newEmail.getD ""))
  else none

/-- Specification-style identifier builder written from the amended wording
of the identifier rule: when the phone input is present and non-blank, the
identifier is `digits@phone.local` when some digit exists and null
otherwise (the email input is not consulted); when the phone input is
absent or blank, the identifier is the trimmed email when that is
non-blank, else null. -/
def trimmedEmailOrNone : Option String → Option String
  | none => none
  | some s => if !(s == "") && !(jsTrim s == "") then some (jsTrim s) else none

/-- Amended identifier rule as one function, to be compared with the source
embedding `buildIdentifier`. -/
def buildIdentifierAmendedSpec (newPhone newEmail : Option String) : Option String :=
  match newPhone with
  | some p =>
    if !(p == "") && !(jsTrim p == "") then
      (if stripNonDigits p == "" then none
       else some (stripNonDigits p ++ "@phone.local"))
    else trimmedEmailOrNone newEmail
  | none => trimmedEmailOrNone newEmail

/-- Process environment of the function, `src/index.js` lines 129-133:
the five required settings, with the project id readable from either of
two variables. -/
structure Config where
  endpoint : Option String
  projectId : Option String
  project : Option String
  apiKey : Option String
  databaseId : Option String
  userCollectionId : Option String
deriving DecidableEq

/-- Model of `env.APPWRITE_PROJECT_ID || env.APPWRITE_PROJECT`
(`src/index.js` line 130). -/
def effectiveProjectId (c : Config) : Option String :=
  if truthy c.projectId then c.projectId else c.project

/-- The configuration guard of `src/index.js` line 135: every required
setting must be truthy. -/
def configOk (c : Config) : Bool :=
  truthy c.endpoint && truthy (effectiveProjectId c) && truthy c.apiKey
    && truthy c.databaseId && truthy c.userCollectionId

/-- The sparse profile-document patch built in `src/index.js`
lines 203-206. -/
structure ProfileData where
  phone : Option String := none
  email : Option String := none
  name : Option String := none
deriving DecidableEq

/-- The JSON payload as destructured in `src/index.js` lines 145-153.
The JS object may carry keys the destructuring does not bind; the spec
names `verifyCurrentPassword` as one such optional key, so it is carried
here (and, like `currentPassword`, never read by the function). -/
structure Body where
  profileId : Option String := none
  accountId : Option String := none
  currentPassword : Option String := none
  newPhone : Option String := none
  newEmail : Option String := none
  name : Option String := none
  newPassword : Option String := none
  verifyCurrentPassword : Option Bool := none
deriving DecidableEq

/-- One outbound network call.  `usersUpdate` is `users.update(...)`
(`src/index.js` line 191), `updateDocument` is
`databases.updateDocument(...)` (line 210), and `createSession` is the
session-creation password check the spec describes; no variant in the
repository ever issues it. -/
inductive Call
  | usersUpdate (userId : String) (email password userName : Option String)
  | updateDocument (databaseId collectionId documentId : String) (data : ProfileData)
  | createSession (identifier password : String)
deriving DecidableEq

/-- Oracles for the two remote Appwrite endpoints the function calls:
each returns the updated external record (modelled as an opaque string)
or an error message (a thrown SDK error / non-success response). -/
structure Remote where
  usersUpdate : String → Option String → Option String → Option String → Except String String
  updateDocument : String → String → String → ProfileData → Except String String

/-- The single JSON result object the function emits.  Fields the JS
object does not carry on a given path are `none`; the validation-error
path echoes the parsed payload in `payload` (`src/index.js` line 156). -/
structure Result where
  ok : Bool
  account : Option String := none
  profile : Option String := none
  message : Option String := none
  detail : Option String := none
  payload : Option Body := none
deriving DecidableEq

/-- Value of `updateArgs.email ?? null` (`src/index.js` lines 180, 187):
the freshly built login identifier, if any. -/
def emailForSdk (b : Body) : Option String :=
  buildIdentifier b.newPhone b.newEmail

/-- Value of `updateArgs.password ?? null` (`src/index.js` lines 181, 188). -/
def passwordForSdk (b : Body) : Option String :=
  if truthyTrim b.newPassword then some (jsTrim (b.newPassword.getD "")) else none

/-- Value of `updateArgs.name ?? null` (`src/index.js` lines 182, 189). -/
def nameForSdk (b : Body) : Option String :=
  if truthyTrim b.name then some (jsTrim (b.name.getD "")) else none

/-- Model of `Object.keys(updateArgs).length > 0` (`src/index.js`
line 184). -/
def updateArgsNonempty (b : Body) : Bool :=
  (emailForSdk b).isSome || (passwordForSdk b).isSome || (nameForSdk b).isSome

/-- The profile patch of `src/index.js` lines 203-206: note that the
phone field is guarded by plain truthiness (no trim, no digit check), so
any truthy `newPhone` writes its digit extraction, possibly `""`. -/
def profileData (b : Body) : ProfileData :=
  { phone := if truthy b.newPhone then some (stripNonDigits (b.newPhone.getD "")) else none
    email := if truthyTrim b.newEmail then some (jsTrim (b.newEmail.getD "")) else none
    name := if truthyTrim b.name then some (jsTrim (b.name.getD "")) else none }

/-- Model of `Object.keys(profileData).length > 0` (`src/index.js`
line 208). -/
def profileDataNonempty (b : Body) : Bool :=
  (profileData b).phone.isSome || (profileData b).email.isSome || (profileData b).name.isSome

/-- Error message of the configuration guard, `src/index.js` lines 136-140. -/
def missingEnvMessage : String :=
  "Missing required environment variables. Ensure APPWRITE_ENDPOINT, APPWRITE_PROJECT_ID (or APPWRITE_PROJECT), APPWRITE_API_KEY, APPWRITE_DATABASE_ID, APPWRITE_USER_COLLECTION_ID are set."

/-- Validation error message, `src/index.js` line 156. -/
def missingIdsMessage : String :=
  "profileId and accountId are required in payload"

/-- Auth-update failure message, `src/index.js` line 195. -/
def authFailMessage : String :=
  "Failed to update Auth user"

/-- Profile-update failure message, `src/index.js` line 215. -/
def profileFailMessage : String :=
  "Failed to update profile document"

/-- Step 2 of the orchestrator, `src/index.js` lines 201-222: patch the
profile document if the patch is non-empty, then emit the combined
result.  `updatedAccount` and `calls` carry the outcome of step 1. -/
def profileStep (cfg : Config) (b : Body) (remote : Remote)
    (updatedAccount : Option String) (calls : List Call) : Result × List Call :=
  if profileDataNonempty b then
    let call := Call.updateDocument (cfg.databaseId.getD "") (cfg.userCollectionId.getD "")
      (b.profileId.getD "") (profileData b)
    match remote.updateDocument (cfg.databaseId.getD "") (cfg.userCollectionId.getD "")
      (b.profileId.getD "") (profileData b) with
    | Except.error e =>
      ({ ok := false, message := some profileFailMessage, detail := some e }, calls ++ [call])
    | Except.ok doc =>
      ({ ok := true, account := updatedAccount, profile := some doc }, calls ++ [call])
  else
    ({ ok := true, account := updatedAccount, profile := none }, calls)

/-- The orchestrator, `src/index.js` lines 124-227 (`userFunction`), after
payload resolution: config guard, required-field validation, optional
auth-record update, optional profile-document patch, single result. -/
def userFunction (cfg : Config) (b : Body) (remote : Remote) : Result × List Call :=
  if !configOk cfg then
    ({ ok := false, message := some missingEnvMessage }, [])
  else if !truthy b.profileId || !truthy b.accountId then
    ({ ok := false, message := some missingIdsMessage, payload := some b }, [])
  else if updateArgsNonempty b then
    let call := Call.usersUpdate (b.accountId.getD "") (emailForSdk b) (passwordForSdk b)
      (nameForSdk b)
    match remote.usersUpdate (b.accountId.getD "") (emailForSdk b) (passwordForSdk b)
      (nameForSdk b) with
    | Except.error e =>
      ({ ok := false, message := some authFailMessage, detail := some e }, [call])
    | Except.ok acct => profileStep cfg b remote (some acct) [call]
  else
    profileStep cfg b remote none []

/-- Whether a call is the session-creation password check. -/
def isCreateSession : Call → Bool
  | Call.createSession _ _ => true
  | _ => false

/-- A recovered JS payload object, flattened to an association list of
string keys (only its emptiness and identity matter to the resolver). -/
abbrev Obj := List (String × String)

/-- Whether the character list `pat` starts the character list given first. -/
def listStartsWith : List Char → List Char → Bool
  | _, [] => true
  | [], _ :: _ => false
  | a :: as, b :: bs => a == b && listStartsWith as bs

/-- Whether `pat` occurs contiguously inside the first character list. -/
def listContainsSub : List Char → List Char → Bool
  | [], pat => listStartsWith [] pat
  | l@(_ :: t), pat => listStartsWith l pat || listContainsSub t pat

/-- Model of `s.includes(pat)`. -/
def containsSub (s pat : String) : Bool :=
  listContainsSub s.data pat.data

/-- Oracles for the JS builtins the payload resolver leans on.
`parse` is one successful `JSON.parse` producing a payload object
(`none` models a throw or a useless value), `parseTwice` is
`JSON.parse(JSON.parse(s))` with both parses succeeding, `decodeURI` is
`decodeURIComponent` (`none` models a `URIError`), and `urlParams s k` is
`new URLSearchParams(s).get(k)`. -/
structure JsonOracle where
  parse : String → Option Obj
  parseTwice : String → Option Obj
  decodeURI : String → Option String
  urlParams : String → String → Option String

/-- Invocation-time inputs of the resolver, `src/index.js` lines 49-121:
the runtime context object's `payload` and `request.body` (the latter
either an already-parsed object or a raw string), the two environment
variables, and the buffered stream data (empty when none arrived). -/
structure Ctx where
  payload : Option Obj
  requestBody : Option (Sum Obj String)
  env1 : Option String
  env2 : Option String
  stdin : String

/-- JS `a || b` on two nullable strings: the first operand when truthy,
else the second. -/
def orTruthy (a b : Option String) : Option String :=
  if truthy a then a else b

/-- Source 1, `src/index.js` lines 50-53: `context.payload` when it is a
truthy object with at least one key. -/
def ctxPayloadStage (c : Ctx) : Option Obj :=
  match c.payload with
  | some p => if 0 < p.length then some p else none
  | none => none

/-- Source 2, `src/index.js` lines 55-63: `context.request.body`, returned
directly when already an object, otherwise one `JSON.parse` attempt whose
failure falls through. -/
def requestBodyStage (o : JsonOracle) (c : Ctx) : Option Obj :=
  match c.requestBody with
  | some (Sum.inl obj) => some obj
  | some (Sum.inr s) => if s == "" then none else o.parse s
  | none => none

/-- The URL-encoded wrapper recovery of `src/index.js` lines 74-84 and
104-113: when the raw text looks like a form body containing a
percent-encoded JSON object, extract `body`/`payload`/`data` and try
decode-then-parse, then parse as-is. -/
def urlMaybe (o : JsonOracle) (raw : String) : Option String :=
  orTruthy (o.urlParams raw "body") (orTruthy (o.urlParams raw "payload") (o.urlParams raw "data"))

/-- Decode-then-parse attempts on the extracted wrapper field. -/
def urlWrapped (o : JsonOracle) (raw : String) : Option Obj :=
  if containsSub raw "=" && containsSub raw "%7B" then
    if truthy (urlMaybe o raw) then
      match o.decodeURI ((urlMaybe o raw).getD "") with
      | some dec =>
        match o.parse dec with
        | some v => some v
        | none => o.parse ((urlMaybe o raw).getD "")
      | none => o.parse ((urlMaybe o raw).getD "")
    else none
  else none

/-- Source 3, `src/index.js` lines 65-86: the environment variable text,
parsed once, then double-parsed, then unwrapped from a URL-encoded form
body. -/
def envStage (o : JsonOracle) (raw : String) : Option Obj :=
  match o.parse raw with
  | some v => some v
  | none =>
    match o.parseTwice raw with
    | some v => some v
    | none => urlWrapped o raw

/-- Source 4, `src/index.js` lines 102-117: the buffered stream text,
first unwrapped from a URL-encoded form body, then parsed, then
double-parsed. -/
def stdinStage (o : JsonOracle) (raw : String) : Option Obj :=
  match urlWrapped o raw with
  | some v => some v
  | none =>
    match o.parse raw with
    | some v => some v
    | none => o.parseTwice raw

/-- The payload resolver `readPayloadPossible`, `src/index.js`
lines 49-121: try the four sources in order; when everything fails,
return the empty object. -/
def readPayloadPossible (o : JsonOracle) (c : Ctx) : Obj :=
  match ctxPayloadStage c with
  | some v => v
  | none =>
    match requestBodyStage o c with
    | some v => v
    | none =>
      match (if truthy (orTruthy c.env1 c.env2) then
          envStage o ((orTruthy c.env1 c.env2).getD "") else none) with
      | some v => v
      | none =>
        match (if c.stdin == "" then none else stdinStage o c.stdin) with
        | some v => v
        | none => []

/-- A fully valid concrete configuration used by the concrete instances. -/
def cfgEx : Config :=
  { endpoint := some "https://api.example.test/v1", projectId := some "proj", project := none
    apiKey := some "key", databaseId := some "db", userCollectionId := some "col" }

/-- Remote oracle on which both endpoints succeed. -/
def remoteEx : Remote :=
  { usersUpdate := fun _ _ _ _ => Except.ok "acct"
    updateDocument := fun _ _ _ _ => Except.ok "doc" }

/-- Remote oracle on which the auth update fails. -/
def remoteAuthFail : Remote :=
  { usersUpdate := fun _ _ _ _ => Except.error "auth boom"
    updateDocument := fun _ _ _ _ => Except.ok "doc" }

/-- Remote oracle on which the auth update succeeds and the profile
update fails. -/
def remoteProfileFail : Remote :=
  { usersUpdate := fun _ _ _ _ => Except.ok "acct"
    updateDocument := fun _ _ _ _ => Except.error "db down" }

/-- JSON oracle on which every builtin fails or yields nothing. -/
def oracleNone : JsonOracle :=
  { parse := fun _ => none, parseTwice := fun _ => none
    decodeURI := fun _ => none, urlParams := fun _ _ => none }

/-- Invocation context carrying only malformed payload material. -/
def ctxGarbage : Ctx :=
  { payload := some [], requestBody := some (Sum.inr "not json")
    env1 := some "payload=%7Bgarbage", env2 := none, stdin := "data=%7Boops" }

/-- Request missing `profileId`, first current password. -/
def bodyMissingId1 : Body :=
  { accountId := some "a1", currentPassword := some "pw-A" }

/-- Request missing `profileId`, second current password. -/
def bodyMissingId2 : Body :=
  { accountId := some "a1", currentPassword := some "pw-B" }

/-- Request that supplies a current password and asks for verification
while changing the email. -/
def bodyVerify : Body :=
  { profileId := some "p1", accountId := some "a1", currentPassword := some "hunter2"
    newEmail := some "new@x.com", verifyCurrentPassword := some true }

/-- Request changing only the email. -/
def bodyEmailOnly : Body :=
  { profileId := some "p1", accountId := some "a1", newEmail := some "new@x.com" }

/-- Request with both required ids and no mutable field. -/
def bodyNoop : Body :=
  { profileId := some "p1", accountId := some "a1" }

/-- Request whose phone input is non-blank but digitless, with an email
also supplied. -/
def bodyDashPhone : Body :=
  { profileId := some "p1", accountId := some "a1", newPhone := some "---"
    newEmail := some "e@x.com" }

/-! Helper lemmas. -/

lemma stripNonDigits_beq_false (p : String) (h : hasDigit p = true) :
    (stripNonDigits p == "") = false := by
  simp only [hasDigit, List.any_eq_true] at h
  obtain ⟨c, hc, hd⟩ := h
  rw [beq_eq_false_iff_ne]
  intro he
  have hdata : p.data.filter Char.isDigit = [] := by
    have := congrArg String.data he
    simpa [stripNonDigits] using this
  rw [List.filter_eq_nil_iff] at hdata
  exact hdata c hc hd

/-- C3: the claim's identifier rule says a digitless phone input falls
through to the email branch; the code does not: with phone `"---"` and
email `"a@b.c"` the identifier is `null`, not the trimmed email, even
though the digit string is empty and the trimmed email is non-empty. -/
theorem c3_counterexample :
    stripNonDigits "---" = "" ∧ jsTrim "a@b.c" = "a@b.c" ∧ ("a@b.c" == "") = false ∧
    buildIdentifier (some "---") (some "a@b.c") = none := by
  decide

/-- C3 (amended): the identifier builder is a pure total function of
(newPhone, newEmail); when the phone input is present and non-blank the
identifier is its digit extraction followed by `@phone.local` when some
digit exists and null otherwise, the email never being consulted; when
the phone input is absent or blank the identifier is the trimmed email
when that is non-blank, else null; and the claim's worked example
`"(987) 654-3210"` yields `"9876543210@phone.local"`. -/
theorem c3_amended :
    (∀ p e, buildIdentifier p e = buildIdentifierAmendedSpec p e) ∧
    buildIdentifier (some "(987) 654-3210") none = some "9876543210@phone.local" := by
  constructor
  · intro p e
    unfold buildIdentifier buildIdentifierAmendedSpec trimmedEmailOrNone
    cases p with
    | none =>
      simp only [truthyTrim]
      cases e with
      | none => rfl
      | some s => rfl
    | some s =>
      simp only [truthyTrim, Option.getD_some]
      by_cases h : (!(s == "") && !(jsTrim s == "")) = true
      · simp [h]
      · rw [Bool.not_eq_true] at h
        rw [h]
        simp only [Bool.false_eq_true, if_false]
        cases e with
        | none => rfl
        | some t => simp [truthyTrim]
  · decide

/-- C7: the claim asserts two source variants disagree on the identifier
when both a digit-bearing phone and a non-empty email are supplied (one
phone-first, one email-first); in fact every variant's builder is
phone-first and they all agree on that whole input region, so no such
input exists. -/
theorem c7_counterexample :
    (∃ p e, hasDigit p = true ∧ jsTrim e ≠ "" ∧
      (buildIdentifier (some p) (some e) ≠ buildIdentifierMainVariant (some p) (some e) ∨
       buildIdentifier (some p) (some e) ≠ buildIdentifierHttpVariant (some p) (some e) ∨
       buildIdentifier (some p) (some e) ≠ buildIdentifierPart000 (some p) (some e) ∨
       buildIdentifier (some p) (some e) ≠ buildIdentifierPart001 (some p) (some e) ∨
       buildIdentifier (some p) (some e) ≠ buildIdentifierPart002 (some p) (some e) ∨
       buildIdentifier (some p) (some e) ≠ buildIdentifierPart003 (some p) (some e) ∨
       buildIdentifierRunVariant (some p) (some e) ≠
         IdentOutcome.ok (buildIdentifier (some p) (some e)))) = False := by
  apply eq_false
  rintro ⟨p, e, hd, _, hdiff⟩
  have hrun : buildIdentifierRunVariant (some p) (some e) =
      IdentOutcome.ok (buildIdentifier (some p) (some e)) := by
    unfold buildIdentifierRunVariant buildIdentifier
    by_cases ht : truthyTrim (some p) = true
    · simp [ht, stripNonDigits_beq_false p hd]
    · rw [Bool.not_eq_true] at ht
      by_cases he : truthyTrim (some e) = true
      · simp [ht, he]
      · rw [Bool.not_eq_true] at he
        simp [ht, he]
  rcases hdiff with h|h|h|h|h|h|h
  · exact h rfl
  · exact h rfl
  · exact h rfl
  · exact h rfl
  · exact h rfl
  · exact h rfl
  · exact h hrun

/-- C7 (amended): the eight variants' identifier builders do not
disagree: the seven nullable builders are extensionally equal, the `run`
variant agrees with them (wrapped in `ok`) whenever the phone input
contains a digit, and whenever the phone input passes the non-blank
guard the email input is irrelevant (uniform phone priority). -/
theorem c7_amended :
    (∀ p e, buildIdentifier p e = buildIdentifierMainVariant p e) ∧
    (∀ p e, buildIdentifier p e = buildIdentifierHttpVariant p e) ∧
    (∀ p e, buildIdentifier p e = buildIdentifierPart000 p e) ∧
    (∀ p e, buildIdentifier p e = buildIdentifierPart001 p e) ∧
    (∀ p e, buildIdentifier p e = buildIdentifierPart002 p e) ∧
    (∀ p e, buildIdentifier p e = buildIdentifierPart003 p e) ∧
    (∀ p e, hasDigit p = true →
      buildIdentifierRunVariant (some p) e = IdentOutcome.ok (buildIdentifier (some p) e)) ∧
    (∀ p e1 e2, truthyTrim (some p) = true →
      buildIdentifier (some p) e1 = buildIdentifier (some p) e2) := by
  refine ⟨fun p e => rfl, fun p e => rfl, fun p e => rfl, fun p e => rfl, fun p e => rfl,
    fun p e => rfl, ?_, ?_⟩
  · intro p e hd
    unfold buildIdentifierRunVariant buildIdentifier
    by_cases ht : truthyTrim (some p) = true
    · simp [ht, stripNonDigits_beq_false p hd]
    · rw [Bool.not_eq_true] at ht
      by_cases he : truthyTrim e = true
      · simp [ht, he]
      · rw [Bool.not_eq_true] at he
        simp [ht, he]
  · intro p e1 e2 ht
    unfold buildIdentifier
    simp [ht]

/-- C2: for every request under a valid configuration in which profileId
or accountId is missing (falsy), the emitted result is the ok:false
validation error and the outbound call trace is empty - no password
check, auth update or profile update is issued. -/
theorem c2_validation (cfg : Config) (b : Body) (remote : Remote)
    (hc : configOk cfg = true)
    (h : truthy b.profileId = false ∨ truthy b.accountId = false) :
    userFunction cfg b remote =
      ({ ok := false, message := some missingIdsMessage, payload := some b }, []) := by
  unfold userFunction
  rcases h with h|h <;> simp [hc, h]

/-- C2 witness: the concrete request missing profileId yields the
validation error with no calls. -/
theorem c2_validation_witness :
    userFunction cfgEx bodyMissingId1 remoteEx =
      ({ ok := false, message := some missingIdsMessage, payload := some bodyMissingId1 }, []) :=
  c2_validation cfgEx bodyMissingId1 remoteEx rfl (Or.inl rfl)

/-- C6: a request with both required ids and none of the mutable fields
issues no network call and succeeds with null account and profile. -/
theorem c6_noop (cfg : Config) (b : Body) (remote : Remote)
    (hc : configOk cfg = true) (hp : truthy b.profileId = true) (ha : truthy b.accountId = true)
    (h1 : b.newPhone = none) (h2 : b.newEmail = none) (h3 : b.name = none)
    (h4 : b.newPassword = none) :
    userFunction cfg b remote = ({ ok := true, account := none, profile := none }, []) := by
  have he : updateArgsNonempty b = false := by
    simp [updateArgsNonempty, emailForSdk, passwordForSdk, nameForSdk, buildIdentifier,
      h1, h2, h3, h4, truthyTrim]
  have hpd : profileDataNonempty b = false := by
    simp [profileDataNonempty, profileData, h1, h2, h3, truthy, truthyTrim]
  unfold userFunction
  simp [hc, hp, ha, he, profileStep, hpd]

/-- C6 witness: the concrete no-op request succeeds with no calls. -/
theorem c6_noop_witness :
    userFunction cfgEx bodyNoop remoteEx = ({ ok := true, account := none, profile := none }, []) :=
  c6_noop cfgEx bodyNoop remoteEx rfl rfl rfl rfl rfl rfl rfl

/-- C4: whenever the issued auth-update call fails, the function
short-circuits: the trace holds exactly that one call (so the
profile-update call is never issued) and the result is the auth-update
failure with the remote error as detail. -/
theorem c4_auth_short_circuit (cfg : Config) (b : Body) (remote : Remote) (e : String)
    (hc : configOk cfg = true) (hp : truthy b.profileId = true) (ha : truthy b.accountId = true)
    (hu : updateArgsNonempty b = true)
    (hf : remote.usersUpdate (b.accountId.getD "") (emailForSdk b) (passwordForSdk b)
      (nameForSdk b) = Except.error e) :
    userFunction cfg b remote =
      ({ ok := false, message := some authFailMessage, detail := some e },
       [Call.usersUpdate (b.accountId.getD "") (emailForSdk b) (passwordForSdk b)
         (nameForSdk b)]) := by
  unfold userFunction
  simp [hc, hp, ha, hu, hf]

/-- C4 witness: on the concrete email-change request with a failing auth
endpoint, the result is the auth failure and the only call is the auth
update. -/
theorem c4_auth_short_circuit_witness :
    userFunction cfgEx bodyEmailOnly remoteAuthFail =
      ({ ok := false, message := some authFailMessage, detail := some "auth boom" },
       [Call.usersUpdate "a1" (some "new@x.com") none none]) :=
  c4_auth_short_circuit cfgEx bodyEmailOnly remoteAuthFail "auth boom" rfl rfl rfl rfl rfl

/-- C5: the claim says the profile-failure result includes the
already-updated account data; on a concrete run whose auth update
succeeds (returning the account record) and whose profile update fails,
the emitted result carries only the failure message and detail - its
account field is null, so the caller is not shown the partial
completion. -/
theorem c5_counterexample :
    remoteProfileFail.usersUpdate "a1" (some "new@x.com") none none = Except.ok "acct" ∧
    userFunction cfgEx bodyEmailOnly remoteProfileFail =
      ({ ok := false, message := some profileFailMessage, detail := some "db down" },
       [Call.usersUpdate "a1" (some "new@x.com") none none,
        Call.updateDocument "db" "col" "p1" { email := some "new@x.com" }]) ∧
    (userFunction cfgEx bodyEmailOnly remoteProfileFail).1.account = none := by
  refine ⟨rfl, by decide, by decide⟩

/-- C5 (amended): when the auth update succeeds and the subsequent
profile update fails, the emitted failure result reports the
profile-update message and the remote error detail but does not include
the already-updated account data (its account field is null); both calls
appear in the trace and there is no rollback call. -/
theorem c5_amended (cfg : Config) (b : Body) (remote : Remote) (acct e : String)
    (hc : configOk cfg = true) (hp : truthy b.profileId = true) (ha : truthy b.accountId = true)
    (hu : updateArgsNonempty b = true)
    (hok : remote.usersUpdate (b.accountId.getD "") (emailForSdk b) (passwordForSdk b)
      (nameForSdk b) = Except.ok acct)
    (hpd : profileDataNonempty b = true)
    (hpf : remote.updateDocument (cfg.databaseId.getD "") (cfg.userCollectionId.getD "")
      (b.profileId.getD "") (profileData b) = Except.error e) :
    userFunction cfg b remote =
      ({ ok := false, message := some profileFailMessage, detail := some e },
       [Call.usersUpdate (b.accountId.getD "") (emailForSdk b) (passwordForSdk b) (nameForSdk b),
        Call.updateDocument (cfg.databaseId.getD "") (cfg.userCollectionId.getD "")
          (b.profileId.getD "") (profileData b)]) := by
  unfold userFunction profileStep
  simp [hc, hp, ha, hu, hok, hpd, hpf]

/-- C5 (amended) witness: the concrete partial-failure run emits the
profile failure with null account and both calls in the trace. -/
theorem c5_amended_witness :
    userFunction cfgEx bodyEmailOnly remoteProfileFail =
      ({ ok := false, message := some profileFailMessage, detail := some "db down" },
       [Call.usersUpdate "a1" (some "new@x.com") none none,
        Call.updateDocument "db" "col" "p1" { email := some "new@x.com" }]) :=
  c5_amended cfgEx bodyEmailOnly remoteProfileFail "acct" "db down" rfl rfl rfl rfl rfl rfl rfl

lemma profileStep_filter_createSession (cfg : Config) (b : Body) (remote : Remote)
    (ua : Option String) (calls : List Call) :
    ((profileStep cfg b remote ua calls).2.filter isCreateSession) =
      calls.filter isCreateSession := by
  unfold profileStep
  split
  · split <;> simp [isCreateSession]
  · rfl

/-- C1: the claim says a request supplying a current password and asking
for verification triggers a session-creation call before any mutation,
and that a failing check blocks both updates; on a concrete such request
the function issues the auth-update and profile-update calls, issues no
session-creation call at all, and succeeds - the supplied current
password is never checked. -/
theorem c1_counterexample :
    bodyVerify.currentPassword = some "hunter2" ∧
    bodyVerify.verifyCurrentPassword = some true ∧
    userFunction cfgEx bodyVerify remoteEx =
      ({ ok := true, account := some "acct", profile := some "doc" },
       [Call.usersUpdate "a1" (some "new@x.com") none none,
        Call.updateDocument "db" "col" "p1" { email := some "new@x.com" }]) ∧
    ((userFunction cfgEx bodyVerify remoteEx).2.filter isCreateSession) = [] := by
  refine ⟨rfl, rfl, by decide, by decide⟩

/-- C1 (amended): no password verification is performed on any request:
for every configuration, payload and remote behavior, the outbound call
trace contains no session-creation call, so a supplied current password
is never checked and never blocks the mutations. -/
theorem c1_amended (cfg : Config) (b : Body) (remote : Remote) :
    ((userFunction cfg b remote).2.filter isCreateSession) = [] := by
  unfold userFunction
  split
  · rfl
  split
  · rfl
  split
  · split
    · rfl
    · rw [profileStep_filter_createSession]
      rfl
  · rw [profileStep_filter_createSession]
    rfl

/-- C9: under a valid configuration with both ids present, a non-blank
digitless phone input yields no auth login identifier (even with an
email supplied, since the email branch is unreachable with a non-blank
phone), yet the profile patch sets phone to the empty string, so a
profile-document update call is still issued. -/
theorem c9_digitless_phone (cfg : Config) (b : Body) (remote : Remote) (p : String)
    (hc : configOk cfg = true) (hp : truthy b.profileId = true) (ha : truthy b.accountId = true)
    (hph : b.newPhone = some p) (hne : (p == "") = false) (htr : (jsTrim p == "") = false)
    (hdig : stripNonDigits p = "")
    (hnm : b.name = none) (hnp : b.newPassword = none) :
    emailForSdk b = none ∧
    (profileData b).phone = some "" ∧
    Call.updateDocument (cfg.databaseId.getD "") (cfg.userCollectionId.getD "")
      (b.profileId.getD "") (profileData b) ∈ (userFunction cfg b remote).2 := by
  have htt : truthyTrim (some p) = true := by simp [truthyTrim, hne, htr]
  have hemail : emailForSdk b = none := by
    unfold emailForSdk buildIdentifier
    rw [hph, htt]
    simp [hdig]
  have hargs : updateArgsNonempty b = false := by
    simp [updateArgsNonempty, hemail, passwordForSdk, nameForSdk, hnm, hnp, truthyTrim]
  have hphone : (profileData b).phone = some "" := by
    simp [profileData, hph, truthy, hne, hdig]
  have hpd : profileDataNonempty b = true := by
    simp [profileDataNonempty, hphone]
  refine ⟨hemail, hphone, ?_⟩
  unfold userFunction
  simp only [hc, hp, ha, hargs]
  unfold profileStep
  simp only [hpd]
  simp
  split <;> simp

/-- C9 witness: the concrete request with phone `"---"` and an email
derives no identifier, patches phone to `""`, and still issues the
profile-document update. -/
theorem c9_digitless_phone_witness :
    emailForSdk bodyDashPhone = none ∧
    (profileData bodyDashPhone).phone = some "" ∧
    Call.updateDocument "db" "col" "p1" (profileData bodyDashPhone) ∈
      (userFunction cfgEx bodyDashPhone remoteEx).2 :=
  c9_digitless_phone cfgEx bodyDashPhone remoteEx "---" rfl rfl rfl rfl rfl rfl rfl rfl rfl

/-- C10: the claim says two invocations differing only in
currentPassword emit identical result objects; when profileId is
missing, the validation-error result echoes the payload - including the
differing currentPassword - so the two concrete results differ. -/
theorem c10_counterexample :
    bodyMissingId1 = { bodyMissingId2 with currentPassword := bodyMissingId1.currentPassword } ∧
    (userFunction cfgEx bodyMissingId1 remoteEx).1 ≠
      (userFunction cfgEx bodyMissingId2 remoteEx).1 := by
  refine ⟨rfl, by decide⟩

lemma body_cp_profileId (b : Body) (pw : Option String) :
    ({ b with currentPassword := pw } : Body).profileId = b.profileId := rfl

lemma body_cp_accountId (b : Body) (pw : Option String) :
    ({ b with currentPassword := pw } : Body).accountId = b.accountId := rfl

lemma emailForSdk_cp (b : Body) (pw : Option String) :
    emailForSdk { b with currentPassword := pw } = emailForSdk b := rfl

lemma passwordForSdk_cp (b : Body) (pw : Option String) :
    passwordForSdk { b with currentPassword := pw } = passwordForSdk b := rfl

lemma nameForSdk_cp (b : Body) (pw : Option String) :
    nameForSdk { b with currentPassword := pw } = nameForSdk b := rfl

lemma updateArgsNonempty_cp (b : Body) (pw : Option String) :
    updateArgsNonempty { b with currentPassword := pw } = updateArgsNonempty b := rfl

lemma profileStep_cp (cfg : Config) (b : Body) (remote : Remote) (ua : Option String)
    (calls : List Call) (pw : Option String) :
    profileStep cfg { b with currentPassword := pw } remote ua calls =
      profileStep cfg b remote ua calls := rfl

lemma userFunction_cp_calls (cfg : Config) (remote : Remote) (b : Body) (pw : Option String) :
    (userFunction cfg { b with currentPassword := pw } remote).2 =
      (userFunction cfg b remote).2 := by
  unfold userFunction
  simp only [body_cp_profileId, body_cp_accountId, emailForSdk_cp, passwordForSdk_cp,
    nameForSdk_cp, updateArgsNonempty_cp, profileStep_cp]
  by_cases h1 : configOk cfg = true
  · by_cases h2 : (!truthy b.profileId || !truthy b.accountId) = true
    · simp [h1, h2]
    · simp [h1, h2]
  · simp [h1]

lemma userFunction_cp_result (cfg : Config) (remote : Remote) (b : Body) (pw : Option String)
    (hp : truthy b.profileId = true) (ha : truthy b.accountId = true) :
    userFunction cfg { b with currentPassword := pw } remote = userFunction cfg b remote := by
  unfold userFunction
  simp [body_cp_profileId, body_cp_accountId, emailForSdk_cp, passwordForSdk_cp,
    nameForSdk_cp, updateArgsNonempty_cp, profileStep_cp, hp, ha]

/-- C10 (amended): currentPassword influences no behavior except the
verbatim payload echo of the validation-error result: two invocations
identical but for currentPassword always issue identical outbound call
sequences, and whenever both required ids are present (so validation
passes) they emit identical result objects as well. -/
theorem c10_amended (cfg : Config) (remote : Remote) (b : Body) (pw1 pw2 : Option String) :
    ((userFunction cfg { b with currentPassword := pw1 } remote).2 =
      (userFunction cfg { b with currentPassword := pw2 } remote).2) ∧
    (truthy b.profileId = true → truthy b.accountId = true →
      userFunction cfg { b with currentPassword := pw1 } remote =
        userFunction cfg { b with currentPassword := pw2 } remote) := by
  constructor
  · rw [userFunction_cp_calls cfg remote b pw1, userFunction_cp_calls cfg remote b pw2]
  · intro hp ha
    rw [userFunction_cp_result cfg remote b pw1 hp ha,
      userFunction_cp_result cfg remote b pw2 hp ha]

lemma urlWrapped_none (o : JsonOracle) (raw : String) (hp : ∀ s, o.parse s = none) :
    urlWrapped o raw = none := by
  unfold urlWrapped
  split
  · split
    · split
      · simp [hp]
      · exact hp _
    · rfl
  · rfl

lemma envStage_none (o : JsonOracle) (raw : String) (hp : ∀ s, o.parse s = none)
    (hpt : ∀ s, o.parseTwice s = none) : envStage o raw = none := by
  unfold envStage
  rw [hp, hpt]
  exact urlWrapped_none o raw hp

lemma stdinStage_none (o : JsonOracle) (raw : String) (hp : ∀ s, o.parse s = none)
    (hpt : ∀ s, o.parseTwice s = none) : stdinStage o raw = none := by
  unfold stdinStage
  rw [urlWrapped_none o raw hp, hp, hpt]

/-- C8: the payload resolver is total over its sources and oracles; when
the context payload source and the request-body source yield nothing and
every parse attempt (single parse and double parse, hence also every
URL-encoded recovery) fails, the resolver falls through the whole chain
and returns the empty object instead of failing. -/
theorem c8_total_failure (o : JsonOracle) (c : Ctx)
    (h1 : ctxPayloadStage c = none) (h2 : requestBodyStage o c = none)
    (hp : ∀ s, o.parse s = none) (hpt : ∀ s, o.parseTwice s = none) :
    readPayloadPossible o c = [] := by
  unfold readPayloadPossible
  rw [h1, h2]
  have he : (if truthy (orTruthy c.env1 c.env2) then
      envStage o ((orTruthy c.env1 c.env2).getD "") else none) = none := by
    split
    · exact envStage_none o _ hp hpt
    · rfl
  have hs : (if c.stdin == "" then none else stdinStage o c.stdin) = none := by
    split
    · rfl
    · exact stdinStage_none o _ hp hpt
  rw [he, hs]

/-- C8 witness: with an empty context payload object, an unparseable
request body string, a URL-encoded garbage environment variable, garbage
stream data and an oracle on which every builtin fails, the resolver
returns the empty object. -/
theorem c8_total_failure_witness : readPayloadPossible oracleNone ctxGarbage = [] :=
  c8_total_failure oracleNone ctxGarbage rfl rfl (fun _ => rfl) (fun _ => rfl)

end UpdateLogin
